import Mathlib

/-!
Verification of the Timeline Checkpoint Extraction Engine described by the
repository's specification.  The repository itself contains only HTTP test
and debug scripts for a remote "timeline-lite" endpoint; the engine they
exercise is not part of the repository, so every definition below is a
model of the engine reconstructed from the specification text (each doc
comment names the spec section it follows).
-/

namespace Claimb

/-- Modelled from the spec: §3 "Frame" per-participant fields.  The engine is
absent from the repository; this structure follows the spec's data model:
`minionsKilled + jungleMinionsKilled → cs`, `totalGold → gold`, `xp`, `level`. -/
structure ParticipantFrame where
  participantId : Nat
  minionsKilled : Nat
  jungleMinionsKilled : Nat
  totalGold : Nat
  xp : Nat
  level : Nat
deriving DecidableEq, Repr

/-- Modelled from the spec: §3 "Frame" — a snapshot of all participants'
cumulative stats at one game-time instant. -/
structure Frame where
  timestampMillis : Nat
  participantFrames : List ParticipantFrame
deriving DecidableEq, Repr

/-- Modelled from the spec: §4.4 — ward types, distinguishing the
control-ward category from every other ward type. -/
inductive WardType where
  | control : WardType
  | normal : WardType
deriving DecidableEq, Repr

/-- Modelled from the spec: §3 "Event" and §9 "Event-kind open set" — a closed
tagged-variant enumeration of the kinds this core consumes plus an explicit
other/ignored catch-all. -/
inductive EventKind where
  | kill : Nat → Nat → List Nat → EventKind
  | itemPurchased : Nat → Nat → EventKind
  | wardPlaced : Nat → WardType → EventKind
  | wardDestroyed : Nat → EventKind
  | plateDestroyed : Nat → Nat → EventKind
  | otherKind : EventKind
deriving DecidableEq, Repr

/-- Modelled from the spec: §3 "Event" — a discrete, typed occurrence with a
`timestampMillis` and kind-specific fields. -/
structure Event where
  timestampMillis : Nat
  kind : EventKind
deriving DecidableEq, Repr

/-- Modelled from the spec: §3 "Participant reference" — match metadata entry
resolving a stable player identifier (puuid) to the match-local integer id. -/
structure RawParticipant where
  puuid : String
  participantId : Nat
deriving DecidableEq, Repr

/-- Modelled from the spec: §4.1 — the raw timeline payload as received from
the provider; frames or events may be structurally absent. -/
structure RawTimeline where
  participants : List RawParticipant
  frames : Option (List Frame)
  events : Option (List Event)
deriving Repr

/-- Modelled from the spec: §4.1 — the canonical normalized timeline handed to
the four extractors. -/
structure NormalizedTimeline where
  frames : List Frame
  events : List Event
  targetParticipantId : Nat
deriving Repr

/-- Modelled from the spec: §7 error taxonomy (the `TimelineUnavailable` case
belongs to the external fetch collaborator and precedes extraction). -/
inductive EngineError where
  | PlayerNotInMatch : EngineError
  | MalformedTimeline : EngineError
deriving DecidableEq, Repr

/-- Modelled from the spec: §4.1 design rule — frames are defensively
re-sorted by timestamp before being handed downstream. -/
def sortFrames (fs : List Frame) : List Frame :=
  fs.mergeSort (fun a b => Nat.ble a.timestampMillis b.timestampMillis)

/-- Modelled from the spec: §4.1 design rule — events are defensively
re-sorted by timestamp before being handed downstream. -/
def sortEvents (es : List Event) : List Event :=
  es.mergeSort (fun a b => Nat.ble a.timestampMillis b.timestampMillis)

/-- Modelled from the spec: §4.1 `normalize(rawTimeline, targetPlayerId)`.
Fails with `PlayerNotInMatch` if no participant matches, with
`MalformedTimeline` if frames or events are absent or the frame list is
empty (the spec requires at least one frame).  Field-level malformation is
not representable in this shallow model, where every present record is
well-typed. -/
def normalize (raw : RawTimeline) (targetPlayerId : String) :
    Except EngineError NormalizedTimeline :=
  match raw.participants.find? (fun p => p.puuid == targetPlayerId) with
  | none => .error .PlayerNotInMatch
  | some p =>
    match raw.frames, raw.events with
    | some fs, some es =>
      if fs.isEmpty then .error .MalformedTimeline
      else .ok { frames := sortFrames fs, events := sortEvents es,
                 targetParticipantId := p.participantId }
    | _, _ => .error .MalformedTimeline

/-- Modelled from the spec: §4.2 frame selection read together with §5 and §8.
The candidate is the latest frame with `timestampMillis ≤ T` (ties broken by
later sequence position, §4.2 edge case), but a mark the match never reached
is `null`: §8's absence property and §5's partial-timeline rule make a mark
beyond the last frame's time yield `null`, so a frame is only selected when
some frame sits at or after `T` (the mark is inside the covered range). -/
def selectFrame (frames : List Frame) (tms : Nat) : Option Frame :=
  if frames.any (fun g => tms ≤ g.timestampMillis) then
    (frames.filter (fun f => f.timestampMillis ≤ tms)).getLast?
  else
    none

/-- Modelled from the spec: §4.2 — look up the target participant's entry
inside one frame. -/
def findParticipant (f : Frame) (pid : Nat) : Option ParticipantFrame :=
  f.participantFrames.find? (fun p => p.participantId == pid)

/-- Modelled from the spec: §3 — `cs` is `minionsKilled + jungleMinionsKilled`. -/
def csOf (p : ParticipantFrame) : Nat :=
  p.minionsKilled + p.jungleMinionsKilled

/-- Helper predicate: phrases the §3 frame invariant that the cumulative
`cs`/`gold`/`xp` counters never decrease, comparing a participant's entries in
two frames (vacuously true when either lookup fails). -/
def participantLe : Option ParticipantFrame → Option ParticipantFrame → Bool
  | some p, some q =>
      Nat.ble (csOf p) (csOf q) && Nat.ble p.totalGold q.totalGold &&
        Nat.ble p.xp q.xp
  | _, _ => true

/-- Modelled from the spec: §4.2 — a kill event whose killer is the target. -/
def isKillBy (pid : Nat) (e : Event) : Bool :=
  match e.kind with
  | .kill killerId _ _ => killerId == pid
  | _ => false

/-- Modelled from the spec: §4.2 — a kill event whose victim is the target. -/
def isDeathOf (pid : Nat) (e : Event) : Bool :=
  match e.kind with
  | .kill _ victimId _ => victimId == pid
  | _ => false

/-- Modelled from the spec: §4.2 — a kill event whose assisting-participants
set contains the target. -/
def isAssistBy (pid : Nat) (e : Event) : Bool :=
  match e.kind with
  | .kill _ _ assists => assists.contains pid
  | _ => false

/-- Modelled from the spec: §4.2 — kills counted over all kill events with
`timestampMillis ≤` the given cutoff. -/
def countKills (events : List Event) (pid cutoff : Nat) : Nat :=
  events.countP (fun e => decide (e.timestampMillis ≤ cutoff) && isKillBy pid e)

/-- Modelled from the spec: §4.2 — deaths counted over all kill events with
`timestampMillis ≤` the given cutoff. -/
def countDeaths (events : List Event) (pid cutoff : Nat) : Nat :=
  events.countP (fun e => decide (e.timestampMillis ≤ cutoff) && isDeathOf pid e)

/-- Modelled from the spec: §4.2 — assists counted over all kill events with
`timestampMillis ≤` the given cutoff. -/
def countAssists (events : List Event) (pid cutoff : Nat) : Nat :=
  events.countP (fun e => decide (e.timestampMillis ≤ cutoff) && isAssistBy pid e)

/-- Modelled from the spec: §6 — `kda` is formatted as "kills/deaths/assists". -/
def kdaString (k d a : Nat) : String :=
  toString k ++ "/" ++ toString d ++ "/" ++ toString a

/-- Modelled from the spec: §3 "CheckpointSnapshot". -/
structure CheckpointSnapshot where
  cs : Nat
  gold : Nat
  xp : Nat
  kda : String
deriving DecidableEq, Repr

/-- Modelled from the spec: §4.2 `extract` for a single minute mark.  Reads
`cs`/`gold`/`xp` from the selected frame's participant entry and reconstructs
`kda` from kill events with `timestampMillis ≤` the frame's own timestamp
(not `T`).  A missing target participant in the selected frame is a
`MalformedTimeline` fault surfaced upward, not silently defaulted. -/
def extractCheckpoint (frames : List Frame) (events : List Event) (pid : Nat)
    (markMinutes : Nat) : Except EngineError (Option CheckpointSnapshot) :=
  match selectFrame frames (markMinutes * 60000) with
  | none => .ok none
  | some f =>
    match findParticipant f pid with
    | none => .error .MalformedTimeline
    | some p =>
      .ok (some
        { cs := csOf p
          gold := p.totalGold
          xp := p.xp
          kda := kdaString (countKills events pid f.timestampMillis)
              (countDeaths events pid f.timestampMillis)
              (countAssists events pid f.timestampMillis) })

/-- Modelled from the spec: §6 — milestone values are minutes; the response
schema types them `number`, so a timestamp is converted exactly. -/
def minutesOf (tms : Nat) : ℚ :=
  (tms : ℚ) / 60000

/-- Modelled from the spec: §3 "MilestoneSet" — four optional minute values,
absent meaning "did not occur before match end". -/
structure MilestoneSet where
  firstBackMin : Option ℚ
  firstFullItemMin : Option ℚ
  firstKillMin : Option ℚ
  firstDeathMin : Option ℚ
deriving DecidableEq, Repr

/-- Modelled from the spec: §4.3 — an item-purchase event by the target for an
item the external item-metadata collaborator classifies as completed. -/
def isFullItemPurchaseBy (isCompletedItem : Nat → Bool) (pid : Nat) (e : Event) : Bool :=
  match e.kind with
  | .itemPurchased buyerId itemId => buyerId == pid && isCompletedItem itemId
  | _ => false

/-- Modelled from the spec: §4.3 `detectMilestones` — first qualifying event
per category in event order; absent when the scan completes without a match.
The "first back" rule is the pluggable predicate §9 demands, and item
classification is the external collaborator's boolean. -/
def detectMilestones (events : List Event) (pid : Nat)
    (isCompletedItem : Nat → Bool) (isBackSignal : Event → Bool) : MilestoneSet :=
  { firstBackMin :=
      (events.find? isBackSignal).map (fun e => minutesOf e.timestampMillis)
    firstFullItemMin :=
      (events.find? (isFullItemPurchaseBy isCompletedItem pid)).map
        (fun e => minutesOf e.timestampMillis)
    firstKillMin :=
      (events.find? (isKillBy pid)).map (fun e => minutesOf e.timestampMillis)
    firstDeathMin :=
      (events.find? (isDeathOf pid)).map (fun e => minutesOf e.timestampMillis) }

/-- Modelled from the spec: §3 "WindowCounts" vision part. -/
structure VisionCounts where
  wardsPlaced : Nat
  wardsKilled : Nat
  controlWards : Nat
deriving DecidableEq, Repr

/-- Modelled from the spec: §4.4 — a ward-placement event whose placer is the
target. -/
def isWardPlacedBy (pid : Nat) (e : Event) : Bool :=
  match e.kind with
  | .wardPlaced creatorId _ => creatorId == pid
  | _ => false

/-- Modelled from the spec: §4.4 — a control-ward placement by the target. -/
def isControlWardPlacedBy (pid : Nat) (e : Event) : Bool :=
  match e.kind with
  | .wardPlaced creatorId wt => creatorId == pid && wt == WardType.control
  | _ => false

/-- Modelled from the spec: §4.4 — a ward-destroyed event whose destroyer is
the target. -/
def isWardDestroyedBy (pid : Nat) (e : Event) : Bool :=
  match e.kind with
  | .wardDestroyed killerId => killerId == pid
  | _ => false

/-- Modelled from the spec: §4.5 — a plate-destroyed event credited to the
target participant.  §9 leaves team-vs-individual attribution open and tells
implementers to pick one policy and document it; this model credits the
individual participant. -/
def isPlateDestroyedBy (pid : Nat) (e : Event) : Bool :=
  match e.kind with
  | .plateDestroyed killerId _ => killerId == pid
  | _ => false

/-- Modelled from the spec: §4.4 `aggregateVision` — counts over events
strictly before `cutoffMinutes*60000` (exclusive boundary). -/
def aggregateVision (events : List Event) (pid : Nat) (cutoffMinutes : Nat) :
    VisionCounts :=
  { wardsPlaced :=
      events.countP (fun e =>
        decide (e.timestampMillis < cutoffMinutes * 60000) && isWardPlacedBy pid e)
    wardsKilled :=
      events.countP (fun e =>
        decide (e.timestampMillis < cutoffMinutes * 60000) && isWardDestroyedBy pid e)
    controlWards :=
      events.countP (fun e =>
        decide (e.timestampMillis < cutoffMinutes * 60000) && isControlWardPlacedBy pid e) }

/-- Modelled from the spec: §4.5 `aggregatePlates` — exclusive boundary,
mirroring §4.4. -/
def aggregatePlates (events : List Event) (pid : Nat) (cutoffMinutes : Nat) : Nat :=
  events.countP (fun e =>
    decide (e.timestampMillis < cutoffMinutes * 60000) && isPlateDestroyedBy pid e)

/-- Modelled from the spec: §6 — a minimal JSON value type, enough to express
the response record's shape, explicit nulls included. -/
inductive Json where
  | null : Json
  | jnum : Nat → Json
  | jrat : ℚ → Json
  | jstr : String → Json
  | jobj : List (String × Json) → Json

/-- Modelled from the spec: §6 — the key list of a JSON object (the "field
layout" downstream consumers rely on). -/
def topKeys : Json → List String
  | .jobj fields => fields.map Prod.fst
  | _ => []

/-- Modelled from the spec: §6 — field lookup inside a JSON object. -/
def getField (j : Json) (key : String) : Option Json :=
  match j with
  | .jobj fields => (fields.find? (fun kv => kv.fst == key)).map Prod.snd
  | _ => none

/-- Modelled from the spec: §6 — two-level field lookup. -/
def getField2 (j : Json) (key1 key2 : String) : Option Json :=
  (getField j key1).bind (fun inner => getField inner key2)

/-- Modelled from the spec: §4.6/§6 — an absent checkpoint renders as an
explicit null, never as an omitted key. -/
def jsonOfCheckpoint : Option CheckpointSnapshot → Json
  | none => .null
  | some c => .jobj
      [("cs", .jnum c.cs), ("gold", .jnum c.gold), ("xp", .jnum c.xp),
       ("kda", .jstr c.kda)]

/-- Modelled from the spec: §4.3/§6 — an absent milestone renders as an
explicit null, never as `0` or `-1`. -/
def jsonOfMinOpt : Option ℚ → Json
  | none => .null
  | some q => .jrat q

/-- Modelled from the spec: §6 — the fixed `timings` sub-object. -/
def jsonOfMilestones (t : MilestoneSet) : Json :=
  .jobj
    [("firstBackMin", jsonOfMinOpt t.firstBackMin),
     ("firstFullItemMin", jsonOfMinOpt t.firstFullItemMin),
     ("firstKillMin", jsonOfMinOpt t.firstKillMin),
     ("firstDeathMin", jsonOfMinOpt t.firstDeathMin)]

/-- Modelled from the spec: §6 — the fixed `visionPre15` sub-object. -/
def jsonOfVision (v : VisionCounts) : Json :=
  .jobj
    [("wardsPlaced", .jnum v.wardsPlaced), ("wardsKilled", .jnum v.wardsKilled),
     ("controlWards", .jnum v.controlWards)]

/-- Modelled from the spec: §4.6/§6 — the assembled result record. -/
structure AssembledResponse where
  matchId : String
  region : String
  puuid : String
  participantId : Nat
  checkpoint10 : Option CheckpointSnapshot
  checkpoint15 : Option CheckpointSnapshot
  timings : MilestoneSet
  visionPre15 : VisionCounts
  platesPre14 : Nat

/-- Modelled from the spec: §4.6 `assemble` — pure composition of the four
extractors' outputs with the echoed identifying fields. -/
def assemble (matchId region puuid : String) (participantId : Nat)
    (checkpoint10 checkpoint15 : Option CheckpointSnapshot) (timings : MilestoneSet)
    (vision : VisionCounts) (plates : Nat) : AssembledResponse :=
  { matchId := matchId, region := region, puuid := puuid
    participantId := participantId
    checkpoint10 := checkpoint10, checkpoint15 := checkpoint15
    timings := timings, visionPre15 := vision, platesPre14 := plates }

/-- Modelled from the spec: §6 — the response record rendered with its exact
field shape, nulls explicit. -/
def renderResponse (r : AssembledResponse) : Json :=
  .jobj
    [("matchId", .jstr r.matchId), ("region", .jstr r.region),
     ("puuid", .jstr r.puuid), ("participantId", .jnum r.participantId),
     ("checkpoints", .jobj
        [("10min", jsonOfCheckpoint r.checkpoint10),
         ("15min", jsonOfCheckpoint r.checkpoint15)]),
     ("timings", jsonOfMilestones r.timings),
     ("visionPre15", jsonOfVision r.visionPre15),
     ("platesPre14", .jnum r.platesPre14)]

/-- Modelled from the spec: §4.6 — the assembled record in rendered form, as a
single function of the assembler's inputs. -/
def assembledJson (matchId region puuid : String) (participantId : Nat)
    (checkpoint10 checkpoint15 : Option CheckpointSnapshot) (timings : MilestoneSet)
    (vision : VisionCounts) (plates : Nat) : Json :=
  renderResponse
    (assemble matchId region puuid participantId checkpoint10 checkpoint15
      timings vision plates)

/-- Modelled from the spec: §2 control flow — normalize, run the four
independent extractors at the protocol constants (marks 10 and 15, vision
cutoff 15, plate cutoff 14), assemble, render. -/
def runEngine (raw : RawTimeline) (matchId region targetPlayerId : String)
    (isCompletedItem : Nat → Bool) (isBackSignal : Event → Bool) :
    Except EngineError Json := do
  let tl ← normalize raw targetPlayerId
  let c10 ← extractCheckpoint tl.frames tl.events tl.targetParticipantId 10
  let c15 ← extractCheckpoint tl.frames tl.events tl.targetParticipantId 15
  let t := detectMilestones tl.events tl.targetParticipantId isCompletedItem isBackSignal
  let v := aggregateVision tl.events tl.targetParticipantId 15
  let pl := aggregatePlates tl.events tl.targetParticipantId 14
  return renderResponse
    (assemble matchId region targetPlayerId tl.targetParticipantId c10 c15 t v pl)

/-- Concrete partial timeline whose last frame sits at game time 8 minutes. -/
def exC1Frames : List Frame :=
  [⟨0, [⟨1, 0, 0, 500, 0, 1⟩]⟩, ⟨480000, [⟨1, 60, 4, 2500, 4000, 6⟩]⟩]

/-- Concrete participant entry for the 10-minute KDA example. -/
def exC2Part : ParticipantFrame :=
  { participantId := 1, minionsKilled := 80, jungleMinionsKilled := 5,
    totalGold := 3200, xp := 5000, level := 7 }

/-- Concrete frame at game time 10 minutes for the KDA example. -/
def exC2Frame : Frame :=
  { timestampMillis := 600000, participantFrames := [exC2Part] }

/-- Concrete frame list for the KDA example. -/
def exC2Frames : List Frame := [exC2Frame]

/-- Concrete events for the KDA example: the target kills at 3 min, dies at
8 min, assists at 9 min. -/
def exC2Events : List Event :=
  [{ timestampMillis := 180000, kind := .kill 1 2 [] },
   { timestampMillis := 480000, kind := .kill 3 1 [] },
   { timestampMillis := 540000, kind := .kill 4 5 [1] }]

/-- Ward-placed event by participant 1 at exactly 15:00.000. -/
def exC3WardOnBoundary : Event :=
  { timestampMillis := 900000, kind := .wardPlaced 1 .control }

/-- Ward-placed event by participant 1 at 14:59.999. -/
def exC3WardInside : Event :=
  { timestampMillis := 899999, kind := .wardPlaced 1 .normal }

/-- Plate-destroyed event credited to participant 1 at exactly 14:00.000. -/
def exC3PlateOnBoundary : Event :=
  { timestampMillis := 840000, kind := .plateDestroyed 1 100 }

/-- Plate-destroyed event credited to participant 1 at 13:59.999. -/
def exC3PlateInside : Event :=
  { timestampMillis := 839999, kind := .plateDestroyed 1 100 }

/-- Concrete event list with no kill event involving participant 1. -/
def exC4NoKills : List Event :=
  [{ timestampMillis := 100000, kind := .wardPlaced 1 .normal },
   { timestampMillis := 200000, kind := .kill 2 3 [] }]

/-- Concrete event list in which participant 1 first kills at 4 min and first
dies at 8 min. -/
def exC4Kills : List Event :=
  [{ timestampMillis := 100000, kind := .wardPlaced 1 .normal },
   { timestampMillis := 240000, kind := .kill 1 2 [] },
   { timestampMillis := 480000, kind := .kill 2 1 [] }]

/-- Raw timeline whose participant list does not contain the target. -/
def exC5NoPlayer : RawTimeline :=
  { participants := [{ puuid := "other-puuid", participantId := 2 }],
    frames := some [{ timestampMillis := 60000, participantFrames := [] }],
    events := some [] }

/-- Raw timeline with the target present but no frame list. -/
def exC5NoFrames : RawTimeline :=
  { participants := [{ puuid := "puuid-1", participantId := 1 }],
    frames := none,
    events := some [] }

/-- Concrete sorted, monotone frame pair at 10 and 15 minutes. -/
def exC6Frames : List Frame :=
  [⟨600000, [⟨1, 80, 5, 3200, 5000, 7⟩]⟩, ⟨900000, [⟨1, 110, 10, 4800, 7500, 9⟩]⟩]

/-- Milestones with every category absent, for the assembler example. -/
def exC8Milestones : MilestoneSet :=
  { firstBackMin := none, firstFullItemMin := none,
    firstKillMin := none, firstDeathMin := none }

/-- Concrete frame list for the cross-component example. -/
def exC10Frames : List Frame :=
  [⟨600000, [⟨1, 80, 5, 3200, 5000, 7⟩]⟩]

/-- Concrete events for the cross-component example: target kills at 4 min
and dies at 8 min. -/
def exC10Events : List Event :=
  [{ timestampMillis := 240000, kind := .kill 1 2 [] },
   { timestampMillis := 480000, kind := .kill 2 1 [] }]

/-- Helper instance: equality of fallible results is decidable, so concrete
extraction runs can be checked by evaluation. -/
instance {ε α : Type} [DecidableEq ε] [DecidableEq α] : DecidableEq (Except ε α) :=
  fun a b =>
    match a, b with
    | .error x, .error y => decidable_of_iff (x = y) (by simp)
    | .ok x, .ok y => decidable_of_iff (x = y) (by simp)
    | .error _, .ok _ => .isFalse (by simp)
    | .ok _, .error _ => .isFalse (by simp)

/-- Helper: the last element reported by `getLast?` is a member of the list. -/
theorem mem_of_last_opt {α : Type} :
    ∀ {l : List α} {a : α}, l.getLast? = some a → a ∈ l
  | [], _, h => by simp at h
  | [x], a, h => by
      simp only [List.getLast?_singleton, Option.some.injEq] at h
      simp [h]
  | x :: y :: ys, a, h => by
      rw [List.getLast?_cons_cons] at h
      exact List.mem_cons_of_mem x (mem_of_last_opt h)

/-- Helper: in a `Pairwise R` list, every member is related to the last
element (or is it). -/
theorem pairwise_rel_last_opt {α : Type} {R : α → α → Prop} :
    ∀ {l : List α} {a b : α}, l.Pairwise R → l.getLast? = some a → b ∈ l →
      R b a ∨ b = a
  | [], _, _, _, h, _ => by simp at h
  | [x], a, b, _, h, hb => by
      simp only [List.getLast?_singleton, Option.some.injEq] at h
      simp only [List.mem_singleton] at hb
      exact Or.inr (hb.trans h)
  | x :: y :: ys, a, b, hp, h, hb => by
      rw [List.getLast?_cons_cons] at h
      rcases List.mem_cons.mp hb with hbx | hb2
      · subst hbx
        exact Or.inl ((List.pairwise_cons.mp hp).1 a (mem_of_last_opt h))
      · exact pairwise_rel_last_opt (List.pairwise_cons.mp hp).2 h hb2

/-- Helper: `find?` returns the first qualifying element of the list. -/
theorem find_first_of_split {α : Type} (p : α → Bool) :
    ∀ (l1 : List α) (e : α) (l2 : List α), p e = true → (∀ x ∈ l1, p x = false) →
      (l1 ++ e :: l2).find? p = some e
  | [], e, l2, hpe, _ => by
      simp only [List.nil_append]
      exact List.find?_cons_of_pos l2 hpe
  | x :: l1, e, l2, hpe, hl1 => by
      have hx : p x = false := hl1 x (List.mem_cons_self x l1)
      rw [List.cons_append, List.find?_cons_of_neg _ (by simp [hx])]
      exact find_first_of_split p l1 e l2 hpe
        (fun y hy => hl1 y (List.mem_cons_of_mem x hy))

/-- C7: for every timeline and target participant, the vision aggregator's
output satisfies `controlWards ≤ wardsPlaced`, since `controlWards` counts the
subset of the counted ward-placement events whose ward type is the
control-ward category. -/
theorem C7_control_wards_le_wards_placed (events : List Event)
    (pid cutoffMinutes : Nat) :
    (aggregateVision events pid cutoffMinutes).controlWards ≤
      (aggregateVision events pid cutoffMinutes).wardsPlaced := by
  unfold aggregateVision
  refine List.countP_mono_left (fun e _ hcw => ?_)
  simp only [Bool.and_eq_true] at hcw ⊢
  refine ⟨hcw.1, ?_⟩
  have h2 := hcw.2
  unfold isControlWardPlacedBy at h2
  unfold isWardPlacedBy
  cases hk : e.kind with
  | wardPlaced creatorId wt =>
    rw [hk] at h2
    exact (Bool.and_eq_true_iff.mp h2).1
  | kill k v a => rw [hk] at h2; exact absurd h2 (by simp)
  | itemPurchased a b => rw [hk] at h2; exact absurd h2 (by simp)
  | wardDestroyed a => rw [hk] at h2; exact absurd h2 (by simp)
  | plateDestroyed a b => rw [hk] at h2; exact absurd h2 (by simp)
  | otherKind => rw [hk] at h2; exact absurd h2 (by simp)

/-- Helper: a successful checkpoint extraction decomposes into a selected
frame, a found participant entry, and the snapshot built from them. -/
theorem extract_ok_some {frames : List Frame} {events : List Event}
    {pid M : Nat} {c : CheckpointSnapshot}
    (hc : extractCheckpoint frames events pid M = .ok (some c)) :
    ∃ f p, selectFrame frames (M * 60000) = some f ∧
      findParticipant f pid = some p ∧
      c = ⟨csOf p, p.totalGold, p.xp,
        kdaString (countKills events pid f.timestampMillis)
          (countDeaths events pid f.timestampMillis)
          (countAssists events pid f.timestampMillis)⟩ := by
  unfold extractCheckpoint at hc
  split at hc
  · exact absurd hc (by simp)
  · next f heq =>
    split at hc
    · exact absurd hc (by simp)
    · next p heq2 =>
      simp only [Except.ok.injEq, Option.some.injEq] at hc
      exact ⟨f, p, heq, heq2, hc.symm⟩

/-- Helper: a selected frame belongs to the frame list and sits at or before
the requested time. -/
theorem select_some_mem {frames : List Frame} {tms : Nat} {f : Frame}
    (h : selectFrame frames tms = some f) :
    f ∈ frames ∧ f.timestampMillis ≤ tms := by
  unfold selectFrame at h
  split at h
  · have hm := mem_of_last_opt h
    rw [List.mem_filter] at hm
    exact ⟨hm.1, by simpa using hm.2⟩
  · exact absurd h (by simp)

/-- Helper: on a timestamp-sorted frame list, the frame selected for an
earlier mark is no later than the frame selected for a later mark. -/
theorem select_ts_le {frames : List Frame} {t1 t2 : Nat} {f1 f2 : Frame}
    (hsorted : frames.Pairwise
      (fun a b => a.timestampMillis ≤ b.timestampMillis))
    (hle : t1 ≤ t2)
    (h1 : selectFrame frames t1 = some f1)
    (h2 : selectFrame frames t2 = some f2) :
    f1.timestampMillis ≤ f2.timestampMillis := by
  have hm1 := select_some_mem h1
  unfold selectFrame at h2
  split at h2
  · have hf1mem : f1 ∈ frames.filter (fun x => x.timestampMillis ≤ t2) :=
      List.mem_filter.mpr ⟨hm1.1, by
        simp only [decide_eq_true_eq]
        have := hm1.2
        omega⟩
    have hp : (frames.filter (fun x => x.timestampMillis ≤ t2)).Pairwise
        (fun a b => a.timestampMillis ≤ b.timestampMillis) := hsorted.filter _
    rcases pairwise_rel_last_opt hp h2 hf1mem with h | h
    · exact h
    · rw [h]
  · exact absurd h2 (by simp)

/-- C1 counterexample: in the partial timeline `exC1Frames`, whose last frame
is at game time 8 minutes, a frame with `timestampMillis ≤ 600000` exists and
is the latest such frame, so the claim's selection rule demands a non-null
10-minute checkpoint; yet the checkpoint is null, exactly as the claim's own
absence requirement ("last frame at 8 minutes yields null checkpoints")
demands.  The two halves of the claim cannot both hold on this input; the
model follows §5/§8 of the spec, falsifying the selection half as stated. -/
theorem C1_counterexample :
    (exC1Frames.filter (fun f => f.timestampMillis ≤ 10 * 60000)).getLast? =
        some ⟨480000, [⟨1, 60, 4, 2500, 4000, 6⟩]⟩
    ∧ selectFrame exC1Frames (10 * 60000) = none
    ∧ extractCheckpoint exC1Frames [] 1 10 = .ok none
    ∧ extractCheckpoint exC1Frames [] 1 15 = .ok none := by decide

/-- C1 (amended): for each mark `M` with `T = M * 60000`, whenever the
extractor selects a frame it is the latest frame with `timestampMillis ≤ T`;
when the match ended before the mark (every frame strictly before `T`) — in
particular any timeline whose last frame is at 8 minutes, for both the 10-
and 15-minute marks — the checkpoint is null, and likewise when `T` precedes
every frame; extraction terminates normally (`Except.ok none`), not with an
error. -/
theorem C1_checkpoint_selection (frames : List Frame) (events : List Event)
    (pid M : Nat)
    (hsorted : frames.Pairwise
      (fun a b => a.timestampMillis ≤ b.timestampMillis)) :
    (∀ f, selectFrame frames (M * 60000) = some f →
        f ∈ frames ∧ f.timestampMillis ≤ M * 60000 ∧
        ∀ g ∈ frames, g.timestampMillis ≤ M * 60000 →
          g.timestampMillis ≤ f.timestampMillis)
    ∧ ((∀ g ∈ frames, g.timestampMillis < M * 60000) →
        extractCheckpoint frames events pid M = .ok none)
    ∧ ((∀ g ∈ frames, M * 60000 < g.timestampMillis) →
        extractCheckpoint frames events pid M = .ok none) := by
  refine ⟨?_, ?_, ?_⟩
  · intro f hf
    unfold selectFrame at hf
    split at hf
    case isTrue hany =>
      have hmemf := mem_of_last_opt hf
      rw [List.mem_filter] at hmemf
      refine ⟨hmemf.1, by simpa using hmemf.2, ?_⟩
      intro g hg hgle
      have hgf : g ∈ frames.filter (fun x => x.timestampMillis ≤ M * 60000) :=
        List.mem_filter.mpr ⟨hg, by simpa using hgle⟩
      have hp : (frames.filter (fun x => x.timestampMillis ≤ M * 60000)).Pairwise
          (fun a b => a.timestampMillis ≤ b.timestampMillis) := hsorted.filter _
      rcases pairwise_rel_last_opt hp hf hgf with h | h
      · exact h
      · rw [h]
    case isFalse _ => exact absurd hf (by simp)
  · intro hall
    have hany : frames.any (fun g => M * 60000 ≤ g.timestampMillis) = false := by
      rw [List.any_eq_false]
      intro g hg
      have := hall g hg
      simp only [decide_eq_true_eq]
      omega
    unfold extractCheckpoint selectFrame
    simp [hany]
  · intro hall
    have hfil : frames.filter (fun f => f.timestampMillis ≤ M * 60000) = [] := by
      rw [List.filter_eq_nil_iff]
      intro g hg
      have := hall g hg
      simp only [decide_eq_true_eq]
      omega
    unfold extractCheckpoint selectFrame
    simp [hfil]

/-- C1 witness: the amended theorem applied to the concrete 8-minute partial
timeline gives null checkpoints at both marks. -/
theorem C1_checkpoint_selection_witness :
    extractCheckpoint exC1Frames [] 1 10 = .ok none
    ∧ extractCheckpoint exC1Frames [] 1 15 = .ok none :=
  ⟨(C1_checkpoint_selection exC1Frames [] 1 10 (by decide)).2.1 (by decide),
   (C1_checkpoint_selection exC1Frames [] 1 15 (by decide)).2.1 (by decide)⟩

/-- C2: for every non-null checkpoint, the `kda` field is the formatted
"kills/deaths/assists" tally of kill events with `timestampMillis ≤` the
selected frame's own timestamp (not the mark time); and on the concrete
timeline where the target kills at 3 min, dies at 8 min, assists at 9 min,
with a frame at 10 min, the 10-minute checkpoint's kda is "1/1/1". -/
theorem C2_kda_reconstruction :
    (∀ (frames : List Frame) (events : List Event) (pid M : Nat)
        (c : CheckpointSnapshot),
        extractCheckpoint frames events pid M = .ok (some c) →
        ∃ f, selectFrame frames (M * 60000) = some f ∧
          c.kda = kdaString (countKills events pid f.timestampMillis)
            (countDeaths events pid f.timestampMillis)
            (countAssists events pid f.timestampMillis))
    ∧ extractCheckpoint exC2Frames exC2Events 1 10 =
        .ok (some ⟨85, 3200, 5000, "1/1/1"⟩) := by
  constructor
  · intro frames events pid M c hc
    unfold extractCheckpoint at hc
    split at hc
    · exact absurd hc (by simp)
    · next f heq =>
      split at hc
      · exact absurd hc (by simp)
      · next p heq2 =>
        simp only [Except.ok.injEq, Option.some.injEq] at hc
        exact ⟨f, heq, by rw [← hc]⟩
  · decide

/-- C2 witness: the general kda characterization instantiated on the concrete
"1/1/1" timeline. -/
theorem C2_kda_reconstruction_witness :
    ∃ f, selectFrame exC2Frames (10 * 60000) = some f ∧
      (⟨85, 3200, 5000, "1/1/1"⟩ : CheckpointSnapshot).kda =
        kdaString (countKills exC2Events 1 f.timestampMillis)
          (countDeaths exC2Events 1 f.timestampMillis)
          (countAssists exC2Events 1 f.timestampMillis) :=
  C2_kda_reconstruction.1 exC2Frames exC2Events 1 10 ⟨85, 3200, 5000, "1/1/1"⟩
    (by decide)

/-- C3: the vision and plate window aggregators use an exclusive cutoff — an
event at or after `cutoffMinutes * 60000` is never counted (appending it
changes nothing), a qualifying event strictly before the cutoff is counted;
in particular a ward placed by the target at exactly 900000 ms is excluded
from `wardsPlaced` while one at 899999 ms is included, and a plate at exactly
840000 ms is excluded while one at 839999 ms is included. -/
theorem C3_window_exclusive_cutoff :
    (∀ (events : List Event) (e : Event) (pid cm : Nat),
        cm * 60000 ≤ e.timestampMillis →
        aggregateVision (events ++ [e]) pid cm = aggregateVision events pid cm ∧
        aggregatePlates (events ++ [e]) pid cm = aggregatePlates events pid cm)
    ∧ (∀ (events : List Event) (e : Event) (pid cm : Nat),
        e.timestampMillis < cm * 60000 → isWardPlacedBy pid e = true →
        (aggregateVision (events ++ [e]) pid cm).wardsPlaced =
          (aggregateVision events pid cm).wardsPlaced + 1)
    ∧ (aggregateVision [exC3WardOnBoundary] 1 15).wardsPlaced = 0
    ∧ (aggregateVision [exC3WardInside] 1 15).wardsPlaced = 1
    ∧ aggregatePlates [exC3PlateOnBoundary] 1 14 = 0
    ∧ aggregatePlates [exC3PlateInside] 1 14 = 1 := by
  refine ⟨?_, ?_, by decide, by decide, by decide, by decide⟩
  · intro events e pid cm h
    have hd : decide (e.timestampMillis < cm * 60000) = false := by
      simp only [decide_eq_false_iff_not]
      omega
    constructor
    · unfold aggregateVision
      simp [List.countP_append, List.countP_cons, hd]
    · unfold aggregatePlates
      simp [List.countP_append, List.countP_cons, hd]
  · intro events e pid cm h hw
    have hd : decide (e.timestampMillis < cm * 60000) = true := by
      simp only [decide_eq_true_eq]
      omega
    unfold aggregateVision
    simp [List.countP_append, List.countP_cons, hd, hw]

/-- C3 witness: the boundary rules applied to the concrete boundary events. -/
theorem C3_window_exclusive_cutoff_witness :
    (aggregateVision ([] ++ [exC3WardOnBoundary]) 1 15 = aggregateVision [] 1 15 ∧
      aggregatePlates ([] ++ [exC3WardOnBoundary]) 1 15 = aggregatePlates [] 1 15)
    ∧ (aggregateVision ([] ++ [exC3WardInside]) 1 15).wardsPlaced =
        (aggregateVision [] 1 15).wardsPlaced + 1 :=
  ⟨C3_window_exclusive_cutoff.1 [] exC3WardOnBoundary 1 15 (by decide),
   C3_window_exclusive_cutoff.2.1 [] exC3WardInside 1 15 (by decide) (by decide)⟩

/-- C4: the milestone detector returns, for each category, the time of the
first qualifying event in event order (`firstKillMin` from the first kill
event where the target is killer, `firstDeathMin` from the first where the
target is victim), and each value is absent (`none`, rendered null) — never
`0` or `-1` — when the scan completes without any qualifying event; a
timeline with zero kill events for the target yields `firstKillMin = none`. -/
theorem C4_milestones_first_or_absent (events : List Event) (pid : Nat)
    (isCompletedItem : Nat → Bool) (isBackSignal : Event → Bool) :
    ((∀ e ∈ events, isKillBy pid e = false) →
        (detectMilestones events pid isCompletedItem isBackSignal).firstKillMin = none)
    ∧ ((∀ e ∈ events, isDeathOf pid e = false) →
        (detectMilestones events pid isCompletedItem isBackSignal).firstDeathMin = none)
    ∧ ((∀ e ∈ events, isFullItemPurchaseBy isCompletedItem pid e = false) →
        (detectMilestones events pid isCompletedItem isBackSignal).firstFullItemMin = none)
    ∧ ((∀ e ∈ events, isBackSignal e = false) →
        (detectMilestones events pid isCompletedItem isBackSignal).firstBackMin = none)
    ∧ (∀ (l1 : List Event) (e : Event) (l2 : List Event), events = l1 ++ e :: l2 →
        isKillBy pid e = true → (∀ x ∈ l1, isKillBy pid x = false) →
        (detectMilestones events pid isCompletedItem isBackSignal).firstKillMin =
          some (minutesOf e.timestampMillis))
    ∧ (∀ (l1 : List Event) (e : Event) (l2 : List Event), events = l1 ++ e :: l2 →
        isDeathOf pid e = true → (∀ x ∈ l1, isDeathOf pid x = false) →
        (detectMilestones events pid isCompletedItem isBackSignal).firstDeathMin =
          some (minutesOf e.timestampMillis)) := by
  refine ⟨?_, ?_, ?_, ?_, ?_, ?_⟩
  · intro h
    have hn : events.find? (isKillBy pid) = none :=
      List.find?_eq_none.mpr (fun x hx => by simp [h x hx])
    simp [detectMilestones, hn]
  · intro h
    have hn : events.find? (isDeathOf pid) = none :=
      List.find?_eq_none.mpr (fun x hx => by simp [h x hx])
    simp [detectMilestones, hn]
  · intro h
    have hn : events.find? (isFullItemPurchaseBy isCompletedItem pid) = none :=
      List.find?_eq_none.mpr (fun x hx => by simp [h x hx])
    simp [detectMilestones, hn]
  · intro h
    have hn : events.find? isBackSignal = none :=
      List.find?_eq_none.mpr (fun x hx => by simp [h x hx])
    simp [detectMilestones, hn]
  · intro l1 e l2 hsplit hke hl1
    subst hsplit
    simp [detectMilestones, find_first_of_split (isKillBy pid) l1 e l2 hke hl1]
  · intro l1 e l2 hsplit hke hl1
    subst hsplit
    simp [detectMilestones, find_first_of_split (isDeathOf pid) l1 e l2 hke hl1]

/-- C4 witness: the detector applied to a concrete timeline with no kill
events for the target, and to one where the target first kills at 4 minutes
and first dies at 8 minutes. -/
theorem C4_milestones_first_or_absent_witness :
    (detectMilestones exC4NoKills 1 (fun _ => false) (fun _ => false)).firstKillMin = none
    ∧ (detectMilestones exC4Kills 1 (fun _ => false) (fun _ => false)).firstKillMin =
        some (minutesOf 240000)
    ∧ (detectMilestones exC4Kills 1 (fun _ => false) (fun _ => false)).firstDeathMin =
        some (minutesOf 480000) :=
  ⟨(C4_milestones_first_or_absent exC4NoKills 1 (fun _ => false) (fun _ => false)).1
      (by decide),
   (C4_milestones_first_or_absent exC4Kills 1 (fun _ => false) (fun _ => false)).2.2.2.2.1
      [⟨100000, .wardPlaced 1 .normal⟩] ⟨240000, .kill 1 2 []⟩
      [⟨480000, .kill 2 1 []⟩] rfl (by decide) (by decide),
   (C4_milestones_first_or_absent exC4Kills 1 (fun _ => false) (fun _ => false)).2.2.2.2.2
      [⟨100000, .wardPlaced 1 .normal⟩, ⟨240000, .kill 1 2 []⟩]
      ⟨480000, .kill 2 1 []⟩ [] rfl (by decide) (by decide)⟩

/-- C5: `normalize` fails with `PlayerNotInMatch` when no participant in the
match's participant list matches the target player id, fails with
`MalformedTimeline` when frames or events are structurally absent (or the
frame list is empty), and on any error produces no normalized timeline — the
failure is terminal for the request. -/
theorem C5_normalize_errors (raw : RawTimeline) (targetPlayerId : String) :
    ((∀ p ∈ raw.participants, (p.puuid == targetPlayerId) = false) →
        normalize raw targetPlayerId = .error .PlayerNotInMatch)
    ∧ ((∃ p ∈ raw.participants, (p.puuid == targetPlayerId) = true) →
        (raw.frames = none ∨ raw.events = none ∨ raw.frames = some []) →
        normalize raw targetPlayerId = .error .MalformedTimeline)
    ∧ (∀ err tl, normalize raw targetPlayerId = .error err →
        normalize raw targetPlayerId ≠ .ok tl) := by
  refine ⟨?_, ?_, ?_⟩
  · intro h
    have hn : raw.participants.find? (fun p => p.puuid == targetPlayerId) = none :=
      List.find?_eq_none.mpr (fun x hx => by simp [h x hx])
    simp [normalize, hn]
  · intro hex hmal
    obtain ⟨p, hp, hpe⟩ := hex
    have hs : (raw.participants.find? (fun q => q.puuid == targetPlayerId)).isSome :=
      List.find?_isSome.mpr ⟨p, hp, by simp [hpe]⟩
    obtain ⟨q, hq⟩ := Option.isSome_iff_exists.mp hs
    rcases hmal with hf | he | hfe
    · cases hev : raw.events <;> simp [normalize, hq, hf, hev]
    · cases hfr : raw.frames <;> simp [normalize, hq, he, hfr]
    · cases hev : raw.events <;> simp [normalize, hq, hfe, hev]
  · intro err tl herr
    rw [herr]
    simp

/-- C5 witness: a raw timeline without the target yields `PlayerNotInMatch`;
one with the target but no frame list yields `MalformedTimeline`. -/
theorem C5_normalize_errors_witness :
    normalize exC5NoPlayer "test-puuid-123" = .error .PlayerNotInMatch
    ∧ normalize exC5NoFrames "puuid-1" = .error .MalformedTimeline :=
  ⟨(C5_normalize_errors exC5NoPlayer "test-puuid-123").1 (by decide),
   (C5_normalize_errors exC5NoFrames "puuid-1").2.1
      ⟨⟨"puuid-1", 1⟩, by decide, by decide⟩ (Or.inl rfl)⟩

/-- C9: the extraction engine is deterministic — two invocations with an
identical timeline and identical identifying inputs produce identical result
records.  `runEngine` is a pure function of its arguments, so determinism is
definitional in this model. -/
theorem C9_engine_deterministic (raw : RawTimeline)
    (matchId region targetPlayerId : String) (isCompletedItem : Nat → Bool)
    (isBackSignal : Event → Bool) :
    runEngine raw matchId region targetPlayerId isCompletedItem isBackSignal =
      runEngine raw matchId region targetPlayerId isCompletedItem isBackSignal := rfl

/-- C6: on a timestamp-sorted timeline whose cumulative `cs`/`gold`/`xp`
counters are non-decreasing per participant across frames, whenever both the
10- and 15-minute checkpoints are non-null, the 15-minute values dominate the
10-minute values in all three fields. -/
theorem C6_checkpoint_monotonicity (frames : List Frame) (events : List Event)
    (pid : Nat)
    (hsorted : frames.Pairwise
      (fun a b => a.timestampMillis ≤ b.timestampMillis))
    (hmono : ∀ f ∈ frames, ∀ g ∈ frames,
        f.timestampMillis ≤ g.timestampMillis →
        participantLe (findParticipant f pid) (findParticipant g pid) = true)
    (c10 c15 : CheckpointSnapshot)
    (h10 : extractCheckpoint frames events pid 10 = .ok (some c10))
    (h15 : extractCheckpoint frames events pid 15 = .ok (some c15)) :
    c10.cs ≤ c15.cs ∧ c10.gold ≤ c15.gold ∧ c10.xp ≤ c15.xp := by
  obtain ⟨f10, p10, hsel10, hfind10, hc10⟩ := extract_ok_some h10
  obtain ⟨f15, p15, hsel15, hfind15, hc15⟩ := extract_ok_some h15
  have hts : f10.timestampMillis ≤ f15.timestampMillis :=
    select_ts_le hsorted (by omega) hsel10 hsel15
  have hmem10 := (select_some_mem hsel10).1
  have hmem15 := (select_some_mem hsel15).1
  have hple := hmono f10 hmem10 f15 hmem15 hts
  rw [hfind10, hfind15] at hple
  simp only [participantLe, Bool.and_eq_true, Nat.ble_eq] at hple
  subst hc10
  subst hc15
  exact ⟨hple.1.1, hple.1.2, hple.2⟩

/-- C6 witness: the monotonicity theorem applied to a concrete sorted,
monotone timeline with frames at 10 and 15 minutes. -/
theorem C6_checkpoint_monotonicity_witness :
    (⟨85, 3200, 5000, kdaString 0 0 0⟩ : CheckpointSnapshot).cs ≤
        (⟨120, 4800, 7500, kdaString 0 0 0⟩ : CheckpointSnapshot).cs ∧
      (⟨85, 3200, 5000, kdaString 0 0 0⟩ : CheckpointSnapshot).gold ≤
        (⟨120, 4800, 7500, kdaString 0 0 0⟩ : CheckpointSnapshot).gold ∧
      (⟨85, 3200, 5000, kdaString 0 0 0⟩ : CheckpointSnapshot).xp ≤
        (⟨120, 4800, 7500, kdaString 0 0 0⟩ : CheckpointSnapshot).xp :=
  C6_checkpoint_monotonicity exC6Frames [] 1 (by decide) (by decide)
    ⟨85, 3200, 5000, kdaString 0 0 0⟩ ⟨120, 4800, 7500, kdaString 0 0 0⟩
    (by decide) (by decide)

/-- C8: the response assembler never fails on its own (it is a total
function) and produces a record with the same fixed field layout regardless
of which optional values are absent: absent checkpoints and milestones
appear as explicit nulls under their fixed keys, never as omitted keys, and
the `matchId`, `region` and `puuid` fields equal the corresponding inputs
unchanged. -/
theorem C8_assembler_fixed_shape (matchId region puuid : String)
    (participantId : Nat) (c10 c15 : Option CheckpointSnapshot)
    (timings : MilestoneSet) (vision : VisionCounts) (plates : Nat) :
    ∀ j, j = assembledJson matchId region puuid participantId c10 c15
        timings vision plates →
      topKeys j = ["matchId", "region", "puuid", "participantId",
        "checkpoints", "timings", "visionPre15", "platesPre14"]
      ∧ Option.map topKeys (getField j "checkpoints") = some ["10min", "15min"]
      ∧ Option.map topKeys (getField j "timings") =
          some ["firstBackMin", "firstFullItemMin", "firstKillMin", "firstDeathMin"]
      ∧ getField j "matchId" = some (.jstr matchId)
      ∧ getField j "region" = some (.jstr region)
      ∧ getField j "puuid" = some (.jstr puuid)
      ∧ (c10 = none → getField2 j "checkpoints" "10min" = some .null)
      ∧ (c15 = none → getField2 j "checkpoints" "15min" = some .null)
      ∧ (timings.firstBackMin = none →
          getField2 j "timings" "firstBackMin" = some .null)
      ∧ (timings.firstFullItemMin = none →
          getField2 j "timings" "firstFullItemMin" = some .null)
      ∧ (timings.firstKillMin = none →
          getField2 j "timings" "firstKillMin" = some .null)
      ∧ (timings.firstDeathMin = none →
          getField2 j "timings" "firstDeathMin" = some .null) := by
  intro j hj
  subst hj
  refine ⟨by rfl, by rfl, by rfl, by rfl, by rfl, by rfl, ?_, ?_, ?_, ?_, ?_, ?_⟩
  · intro h
    rw [h]
    rfl
  · intro h
    rw [h]
    rfl
  · intro h
    simp [assembledJson, renderResponse, assemble, getField2, getField,
      jsonOfMilestones, h, jsonOfMinOpt]
  · intro h
    simp [assembledJson, renderResponse, assemble, getField2, getField,
      jsonOfMilestones, h, jsonOfMinOpt]
  · intro h
    simp [assembledJson, renderResponse, assemble, getField2, getField,
      jsonOfMilestones, h, jsonOfMinOpt]
  · intro h
    simp [assembledJson, renderResponse, assemble, getField2, getField,
      jsonOfMilestones, h, jsonOfMinOpt]

/-- C8 witness: the assembler applied to concrete identifiers with every
optional value absent still yields the fixed layout, explicit nulls, and the
echoed identifiers. -/
theorem C8_assembler_fixed_shape_witness :
    topKeys (assembledJson "EUW1_1234567890" "europe" "test-puuid-123" 1
        none none exC8Milestones ⟨0, 0, 0⟩ 0) =
      ["matchId", "region", "puuid", "participantId", "checkpoints",
        "timings", "visionPre15", "platesPre14"]
    ∧ getField2 (assembledJson "EUW1_1234567890" "europe" "test-puuid-123" 1
        none none exC8Milestones ⟨0, 0, 0⟩ 0) "checkpoints" "10min" =
      some .null
    ∧ getField2 (assembledJson "EUW1_1234567890" "europe" "test-puuid-123" 1
        none none exC8Milestones ⟨0, 0, 0⟩ 0) "timings" "firstKillMin" =
      some .null :=
  ⟨(C8_assembler_fixed_shape "EUW1_1234567890" "europe" "test-puuid-123" 1
      none none exC8Milestones ⟨0, 0, 0⟩ 0 _ rfl).1,
   (C8_assembler_fixed_shape "EUW1_1234567890" "europe" "test-puuid-123" 1
      none none exC8Milestones ⟨0, 0, 0⟩ 0 _ rfl).2.2.2.2.2.2.1 rfl,
   (C8_assembler_fixed_shape "EUW1_1234567890" "europe" "test-puuid-123" 1
      none none exC8Milestones ⟨0, 0, 0⟩ 0 _ rfl).2.2.2.2.2.2.2.2.2.2.1 rfl⟩

/-- C10: cross-component consistency — when the milestone detector reports a
first kill at minute `m` with `m * 60000` at or before the timestamp of the
frame selected for a non-null checkpoint, the kills component of that
checkpoint's kda string is at least 1; symmetrically for a first death and
the deaths component (both are tallied from the same kill-event stream). -/
theorem C10_kda_milestone_consistency (frames : List Frame)
    (events : List Event) (pid : Nat) (isCompletedItem : Nat → Bool)
    (isBackSignal : Event → Bool) (M : Nat) (c : CheckpointSnapshot)
    (f : Frame)
    (hsel : selectFrame frames (M * 60000) = some f)
    (hc : extractCheckpoint frames events pid M = .ok (some c)) :
    (∀ m : ℚ,
        (detectMilestones events pid isCompletedItem isBackSignal).firstKillMin =
          some m →
        m * 60000 ≤ (f.timestampMillis : ℚ) →
        ∃ k d a, c.kda = kdaString k d a ∧ 1 ≤ k)
    ∧ (∀ m : ℚ,
        (detectMilestones events pid isCompletedItem isBackSignal).firstDeathMin =
          some m →
        m * 60000 ≤ (f.timestampMillis : ℚ) →
        ∃ k d a, c.kda = kdaString k d a ∧ 1 ≤ d) := by
  obtain ⟨f', p, hsel', hfind, hcs⟩ := extract_ok_some hc
  have hff : f' = f := Option.some.inj (hsel'.symm.trans hsel)
  subst hff
  subst hcs
  constructor
  · intro m hm hle
    simp only [detectMilestones] at hm
    rw [Option.map_eq_some'] at hm
    obtain ⟨e, hfe, hme⟩ := hm
    have hts : (e.timestampMillis : ℚ) ≤ (f'.timestampMillis : ℚ) := by
      rw [← hme] at hle
      unfold minutesOf at hle
      rwa [div_mul_cancel₀] at hle
      norm_num
    have htsn : e.timestampMillis ≤ f'.timestampMillis := by exact_mod_cast hts
    have hkills : 1 ≤ countKills events pid f'.timestampMillis := by
      unfold countKills
      have hpos : 0 < events.countP
          (fun x => decide (x.timestampMillis ≤ f'.timestampMillis) &&
            isKillBy pid x) :=
        List.countP_pos_iff.mpr
          ⟨e, List.mem_of_find?_eq_some hfe,
           by simp [htsn, List.find?_some hfe]⟩
      omega
    exact ⟨countKills events pid f'.timestampMillis,
      countDeaths events pid f'.timestampMillis,
      countAssists events pid f'.timestampMillis, rfl, hkills⟩
  · intro m hm hle
    simp only [detectMilestones] at hm
    rw [Option.map_eq_some'] at hm
    obtain ⟨e, hfe, hme⟩ := hm
    have hts : (e.timestampMillis : ℚ) ≤ (f'.timestampMillis : ℚ) := by
      rw [← hme] at hle
      unfold minutesOf at hle
      rwa [div_mul_cancel₀] at hle
      norm_num
    have htsn : e.timestampMillis ≤ f'.timestampMillis := by exact_mod_cast hts
    have hdeaths : 1 ≤ countDeaths events pid f'.timestampMillis := by
      unfold countDeaths
      have hpos : 0 < events.countP
          (fun x => decide (x.timestampMillis ≤ f'.timestampMillis) &&
            isDeathOf pid x) :=
        List.countP_pos_iff.mpr
          ⟨e, List.mem_of_find?_eq_some hfe,
           by simp [htsn, List.find?_some hfe]⟩
      omega
    exact ⟨countKills events pid f'.timestampMillis,
      countDeaths events pid f'.timestampMillis,
      countAssists events pid f'.timestampMillis, rfl, hdeaths⟩

/-- C10 witness: the consistency theorem applied to a concrete timeline where
the target's first kill at 4 minutes precedes the 10-minute frame. -/
theorem C10_kda_milestone_consistency_witness :
    ∃ k d a,
      (⟨85, 3200, 5000, kdaString 1 1 0⟩ : CheckpointSnapshot).kda =
        kdaString k d a ∧ 1 ≤ k :=
  (C10_kda_milestone_consistency exC10Frames exC10Events 1 (fun _ => false)
      (fun _ => false) 10 ⟨85, 3200, 5000, kdaString 1 1 0⟩
      ⟨600000, [⟨1, 80, 5, 3200, 5000, 7⟩]⟩ (by decide) (by decide)).1
    (minutesOf 240000) rfl (by norm_num [minutesOf])

end Claimb
